import Mathlib

/-!
# Verification of the Hexagon Light BLE controller protocol codec

Shallow embedding of `hexagon_light.py` (MeRGBW / Fivemi BLE lamp controller):
the frame codec (`_build_command`, `_u16_be`, `_checksum_ff`), payload
encoders (brightness, color, scene), the notification parser
(`_parse_state`), the scene-name resolver (`set_scene_by_name`), and
operational models of the session's write-retry (`_write_frame`) and
connect-retry (`_connect_async`) control flow.

Conventions: Python `bytes` are `List Nat` with entries below 256; Python
`int` is `Int` (its `%` on positive moduli agrees with `Int.emod`, and
`x & 0xFF` on a nonnegative value is `x % 256`); Python float arithmetic in
the color conversion is modelled exactly over `ℚ`.  Leading underscores of
Python names are dropped.
-/

/-- `_clamp_int(value, lo, hi)` from hexagon_light.py (lines 101-106). -/
def clamp_int (value lo hi : Int) : Int :=
  if value < lo then lo
  else if value > hi then hi
  else value

/-- `_checksum_ff(sum_without_checksum)` (lines 109-110):
`(0xFF - (sum & 0xFF)) & 0xFF`; the outer mask is a no-op on the
nonnegative result, and `& 0xFF` is `% 256`. -/
def checksum_ff (sumWithoutChecksum : Nat) : Nat :=
  (0xFF - sumWithoutChecksum % 256) % 256

/-- `_u16_be(value)` (lines 132-134): mask to 16 bits (wrap, not clamp),
then big-endian bytes; `>> 8` is division by 256 and `& 0xFF` is `% 256`. -/
def u16_be (value : Int) : List Nat :=
  let v := (value % 0x10000).toNat
  [v / 256 % 256, v % 256]

/-- `_build_command(cmd, payload)` (lines 113-129) with `payload = b""` for
`None`.  The `ValueError` for over-long frames is `none`.  The Python code
fills a zeroed bytearray of size `length`; header bytes 0-3, payload at
4..4+len, and the checksum over `frame[:-1]` in the last slot occupy it
exactly, which the list below reproduces. -/
def build_command (cmd : Int) (payload : List Nat) : Option (List Nat) :=
  let cmd2 := (cmd % 256).toNat
  let length := 5 + payload.length
  if length > 0xFF then none
  else
    let head := 0x55 :: cmd2 :: 0xFF :: (length % 256) :: payload
    some (head ++ [checksum_ff head.sum])

/-- C1: For every command byte `cmd` and payload with `5 + len ≤ 255`,
`_build_command` returns a frame of total length `5 + len` whose byte 0 is
0x55, byte 1 is `cmd`, byte 2 (seq) is 0xFF, byte 3 is the total frame
length, and whose byte sum mod 256 is 0xFF. -/
theorem build_command_frame_shape (cmd : Int) (payload : List Nat)
    (hc0 : 0 ≤ cmd) (hc : cmd < 256) (hlen : 5 + payload.length ≤ 255) :
    ∃ frame, build_command cmd payload = some frame ∧
      frame.length = 5 + payload.length ∧
      frame.getD 0 0 = 0x55 ∧
      frame.getD 1 0 = cmd.toNat ∧
      frame.getD 2 0 = 0xFF ∧
      frame.getD 3 0 = 5 + payload.length ∧
      frame.sum % 256 = 0xFF := by
  have hmod : cmd % 256 = cmd := Int.emod_eq_of_lt hc0 hc
  have hif : ¬ (5 + payload.length > 0xFF) := by omega
  have heq : build_command cmd payload =
      some ((0x55 :: (cmd % 256).toNat :: 0xFF ::
          ((5 + payload.length) % 256) :: payload) ++
        [checksum_ff (0x55 :: (cmd % 256).toNat :: 0xFF ::
          ((5 + payload.length) % 256) :: payload).sum]) := by
    simp [build_command, hif]
  refine ⟨_, heq, ?_, ?_, ?_, ?_, ?_, ?_⟩
  · simp
    omega
  · simp [List.getD]
  · simp [List.getD, hmod]
  · simp [List.getD]
  · simp [List.getD]
    omega
  · simp [List.sum_append, checksum_ff]
    omega

/-- Witness for `build_command_frame_shape` at the spec's concrete scenario
`build_command(0x01, [0x01])`. -/
theorem build_command_frame_shape_witness :
    ∃ frame, build_command 0x01 [0x01] = some frame ∧
      frame.length = 5 + [0x01].length ∧
      frame.getD 0 0 = 0x55 ∧
      frame.getD 1 0 = Int.toNat 0x01 ∧
      frame.getD 2 0 = 0xFF ∧
      frame.getD 3 0 = 5 + [0x01].length ∧
      frame.sum % 256 = 0xFF :=
  build_command_frame_shape 0x01 [0x01] (by decide) (by decide) (by decide)

/-- C2: `_build_command` fails (raises `ValueError`, the spec's
`EncodingError`) exactly when `5 + len(payload) > 255`; otherwise it
returns a frame. -/
theorem build_command_fails_iff_too_long (cmd : Int) (payload : List Nat) :
    build_command cmd payload = none ↔ 5 + payload.length > 255 := by
  by_cases h : 5 + payload.length > 255 <;> simp [build_command, h]

/-- `HexagonState` (lines 94-98): all fields default to `None`. -/
structure HexagonState where
  is_on : Option Bool := none
  brightness_percent : Option Int := none
  raw : Option (List Nat) := none
deriving DecidableEq

/-- The 0x56-sync-frame brightness decoding of `_parse_state`
(lines 487-490): `b = (value // 10) - 5`, accepted only in `[0, 100]`. -/
def decode_brightness_56 (value : Nat) : Option Int :=
  let b : Int := (value / 10 : Nat) - 5
  if 0 ≤ b ∧ b ≤ 100 then some b else none

/-- `_parse_state(raw)` (lines 453-491) on a byte sequence (`None` input
behaves as the empty one via `if not raw`).  `raw[5] << 8 | raw[6]` is kept
as shift-or; all direct indexings are guarded by the preceding length
checks, so `getD` defaults are never used. -/
def parse_state (raw : List Nat) : HexagonState :=
  if raw.length = 0 then {}
  else if raw.length < 6 then { raw := some raw }
  else if raw.sum % 256 ≠ 0xFF then { raw := some raw }
  else if raw.getD 0 0 = 0x55 then
    let length := raw.getD 3 0
    if length ≠ raw.length then { raw := some raw }
    else
      let is_on := raw.getD 4 0 != 0
      let bp : Option Int :=
        if 7 ≤ raw.length then
          let b : Int := (raw.getD 5 0 : Int) - 5
          if 0 ≤ b ∧ b ≤ 100 then some b else none
        else none
      { is_on := some is_on, brightness_percent := bp, raw := some raw }
  else if raw.getD 0 0 ≠ 0x56 then { raw := some raw }
  else
    let is_on := raw.getD 4 0 != 0
    let bp : Option Int :=
      if 8 ≤ raw.length then
        decode_brightness_56 ((raw.getD 5 0) <<< 8 ||| raw.getD 6 0)
      else none
    { is_on := some is_on, brightness_percent := bp, raw := some raw }

/-- C6: on an empty input, an input shorter than 6 bytes, or one whose byte
sum mod 256 is not 0xFF, `_parse_state` leaves `is_on` and
`brightness_percent` unknown, and preserves the raw bytes whenever the
input is nonempty. -/
theorem parse_state_invalid_input (raw : List Nat)
    (h : raw = [] ∨ raw.length < 6 ∨ raw.sum % 256 ≠ 0xFF) :
    (parse_state raw).is_on = none ∧
    (parse_state raw).brightness_percent = none ∧
    (1 ≤ raw.length → (parse_state raw).raw = some raw) := by
  by_cases h0 : raw.length = 0
  · rw [List.length_eq_zero] at h0
    subst h0
    refine ⟨rfl, rfl, ?_⟩
    intro hc
    simp at hc
  · by_cases h6 : raw.length < 6
    · simp [parse_state, h0, h6]
    · have hsum : raw.sum % 256 ≠ 0xFF := by
        rcases h with h | h | h
        · exact absurd (by simp [h]) h0
        · exact absurd h h6
        · exact h
      simp [parse_state, h0, h6, hsum]

/-- Witness for `parse_state_invalid_input` on the 1-byte input `[0]`. -/
theorem parse_state_invalid_input_witness :
    (parse_state [0]).is_on = none ∧
    (parse_state [0]).brightness_percent = none ∧
    (1 ≤ [0].length → (parse_state [0]).raw = some [0]) :=
  parse_state_invalid_input [0] (Or.inr (Or.inl (by decide)))

/-- C7: parsing the concrete 19-byte sync notification
`5600ff060100be0008177f0008177f00505009` yields `is_on = true`,
`brightness_percent = 14`, and the raw bytes preserved. -/
theorem parse_state_concrete_0x56_frame :
    parse_state [0x56, 0x00, 0xff, 0x06, 0x01, 0x00, 0xbe, 0x00, 0x08,
        0x17, 0x7f, 0x00, 0x08, 0x17, 0x7f, 0x00, 0x50, 0x50, 0x09] =
      { is_on := some true, brightness_percent := some 14,
        raw := some [0x56, 0x00, 0xff, 0x06, 0x01, 0x00, 0xbe, 0x00, 0x08,
          0x17, 0x7f, 0x00, 0x08, 0x17, 0x7f, 0x00, 0x50, 0x50, 0x09] } := by
  decide

/-- The brightness wire value of `_set_brightness_async` (lines 441-443):
`value = (percent + 5) * 10`, clamped to the u16 range. -/
def encode_brightness_wire (percent : Int) : Int :=
  clamp_int ((percent + 5) * 10) 0 0xFFFF

/-- The frame sent by `set_brightness(percent)` (lines 202-204 clamp the
percent to `[0, 100]`, lines 441-446 encode the wire value and build the
cmd `0x05` frame). -/
def set_brightness_frame (percent : Int) : Option (List Nat) :=
  let p := clamp_int percent 0 100
  build_command 0x05 (u16_be (encode_brightness_wire p))

theorem clamp_int_mem (v lo hi : Int) (h : lo ≤ hi) :
    lo ≤ clamp_int v lo hi ∧ clamp_int v lo hi ≤ hi := by
  unfold clamp_int
  split_ifs <;> omega

theorem clamp_int_eq_self (v lo hi : Int) (h0 : lo ≤ v) (h1 : v ≤ hi) :
    clamp_int v lo hi = v := by
  unfold clamp_int
  split_ifs <;> omega

/-- C4: `set_brightness(percent)` clamps the percent to `[0, 100]` and
sends a cmd-0x05 frame whose two payload bytes are the big-endian u16
encoding of `(clamped percent + 5) * 10` (the u16 clamp never bites on a
clamped percent); percent 80 yields wire value 850 and percent 0 yields
wire value 50. -/
theorem set_brightness_frame_spec (percent : Int) :
    ∃ frame, set_brightness_frame percent = some frame ∧
      frame.length = 7 ∧
      frame.getD 1 0 = 0x05 ∧
      ((frame.getD 4 0 : Int) * 256 + (frame.getD 5 0 : Int)) =
        (clamp_int percent 0 100 + 5) * 10 ∧
      encode_brightness_wire (clamp_int 80 0 100) = 850 ∧
      encode_brightness_wire (clamp_int 0 0 100) = 50 := by
  obtain ⟨hp0, hp1⟩ := clamp_int_mem percent 0 100 (by omega)
  set p := clamp_int percent 0 100 with hp
  have hwire : encode_brightness_wire p = (p + 5) * 10 :=
    clamp_int_eq_self _ _ _ (by omega) (by omega)
  have hv : ((p + 5) * 10) % 0x10000 = (p + 5) * 10 :=
    Int.emod_eq_of_lt (by omega) (by omega)
  have hpayload : u16_be (encode_brightness_wire p) =
      [((p + 5) * 10).toNat / 256 % 256, ((p + 5) * 10).toNat % 256] := by
    rw [hwire]
    simp only [u16_be, hv]
  have hframe : set_brightness_frame percent =
      build_command 0x05 [((p + 5) * 10).toNat / 256 % 256,
        ((p + 5) * 10).toNat % 256] := by
    rw [set_brightness_frame, ← hp, hpayload]
  rw [hframe]
  set b4 := ((p + 5) * 10).toNat / 256 % 256 with hb4
  set b5 := ((p + 5) * 10).toNat % 256 with hb5
  have heq : build_command 5 [b4, b5] =
      some [0x55, 5, 0xFF, 7, b4, b5,
        checksum_ff (0x55 + (5 + (0xFF + (7 + (b4 + (b5 + 0))))))] := by
    simp [build_command]
  refine ⟨_, heq, by simp, by simp [List.getD], ?_, by decide, by decide⟩
  simp [List.getD]
  omega

/-- C10: brightness encoding and 0x56-notification brightness decoding are
exact inverses: for every percent in `[0, 100]`, decoding the wire value
`(percent + 5) * 10` by the 0x56 rule `(value // 10) - 5` yields the
percent again, and the decoded value passes the `[0, 100]` range check
(the result is `some`, never `none`). -/
theorem brightness_roundtrip (p : Int) (h0 : 0 ≤ p) (h1 : p ≤ 100) :
    decode_brightness_56 (encode_brightness_wire p).toNat = some p := by
  have hwire : encode_brightness_wire p = (p + 5) * 10 :=
    clamp_int_eq_self _ _ _ (by omega) (by omega)
  rw [hwire]
  have hnat : ((p + 5) * 10).toNat = (p.toNat + 5) * 10 := by omega
  rw [hnat]
  have hdiv : (p.toNat + 5) * 10 / 10 = p.toNat + 5 := by omega
  simp only [decode_brightness_56, hdiv]
  have hb : ((p.toNat + 5 : Nat) : Int) - 5 = p := by omega
  rw [hb]
  simp [h0, h1]

/-- Witness for `brightness_roundtrip` at percent 80 (wire value 850). -/
theorem brightness_roundtrip_witness :
    decode_brightness_56 (encode_brightness_wire 80).toNat = some 80 :=
  brightness_roundtrip 80 (by decide) (by decide)

/-- `SCENES_TG609` (lines 57-80), in source order.  Python `str` is
modelled as `List Char`; the `dict` as an association list (its keys are
distinct, so `List.lookup` agrees with `dict.get`). -/
def SCENES_TG609 : List (List Char × Nat) :=
  [("symphony".data, 2),
   ("energy".data, 3),
   ("jump".data, 4),
   ("vitality".data, 7),
   ("accumulation".data, 16),
   ("chase".data, 23),
   ("space-time".data, 45),
   ("space_time".data, 45),
   ("ephemeral".data, 35),
   ("flow".data, 55),
   ("forest".data, 13),
   ("neon_lights".data, 48),
   ("neon-lights".data, 48),
   ("green_jade".data, 71),
   ("green-jade".data, 71),
   ("running".data, 91),
   ("pink_light".data, 109),
   ("pink-light".data, 109),
   ("alarm".data, 113),
   ("aurora".data, 59),
   ("rainbow".data, 26),
   ("melody".data, 32)]

/-- Python `str.strip()`: drop whitespace from both ends. -/
def py_strip (s : List Char) : List Char :=
  ((s.dropWhile Char.isWhitespace).reverse.dropWhile Char.isWhitespace).reverse

/-- Python `str.lower()` (ASCII case suffices for the scene names). -/
def py_lower (s : List Char) : List Char :=
  s.map Char.toLower

/-- Python `str.replace(a, b)` for the single-character patterns used in
`set_scene_by_name`. -/
def py_replace (s : List Char) (a b : Char) : List Char :=
  s.map (fun c => if c = a then b else c)

/-- The name-to-index resolution of `set_scene_by_name` (lines 212-219):
`key = name.strip().lower().replace(" ", "_")`, looked up in the table;
on a miss, `key2 = name.strip().lower().replace("_", "-")` is tried;
`none` models the `HexagonLightError("Unknown scene name: ...")`. -/
def resolve_scene_name (name : List Char) : Option Nat :=
  let key := py_replace (py_lower (py_strip name)) ' ' '_'
  match SCENES_TG609.lookup key with
  | some scene => some scene
  | none =>
    let key2 := py_replace (py_lower (py_strip name)) '_' '-'
    SCENES_TG609.lookup key2

/-- The frames written by `set_scene_by_name` → `set_scene` →
`_set_scene_async` (lines 209-220, 433-439): the cmd 0x06 scene frame,
then, only when a speed is supplied, the cmd 0x0F speed frame.
`Except.error` models the raised `HexagonLightError`, after which no
command is sent. -/
def set_scene_by_name_frames (name : List Char) (speed : Option Int) :
    Except String (List (List Nat)) :=
  match resolve_scene_name name with
  | none => .error "Unknown scene name"
  | some scene =>
    let scene2 := clamp_int (scene : Int) 0 0xFFFF
    match build_command 0x06 (u16_be scene2) with
    | none => .error "Command too long"
    | some frame =>
      match speed with
      | none => .ok [frame]
      | some sp =>
        let speedByte := (clamp_int sp 0 255 % 256).toNat
        match build_command 0x0F [speedByte] with
        | none => .error "Command too long"
        | some frame2 => .ok [frame, frame2]

/-- C5: scene resolution is case-insensitive and hyphen/underscore
interchangeable — `"Green-Jade"` and `"green_jade"` resolve to the same
index (71) — and any name resolving to nothing makes `set_scene_by_name`
fail with the unknown-scene error without sending any command. -/
theorem scene_name_resolution :
    resolve_scene_name "Green-Jade".data = some 71 ∧
    resolve_scene_name "green_jade".data = some 71 ∧
    ∀ (name : List Char) (speed : Option Int),
      resolve_scene_name name = none →
      set_scene_by_name_frames name speed = .error "Unknown scene name" := by
  refine ⟨by decide, by decide, ?_⟩
  intro name speed h
  simp [set_scene_by_name_frames, h]

/-- Witness for `scene_name_resolution`: the unmatched name `"disco"`
fails without sending a command. -/
theorem scene_name_resolution_witness :
    set_scene_by_name_frames "disco".data (some 3) =
      .error "Unknown scene name" :=
  scene_name_resolution.2.2 "disco".data (some 3) (by decide)

/-- Observable transport-level events of a `_write_frame` run. -/
inductive SessionEvent
  | discard
  | reconnect
  | writeAttempt
deriving DecidableEq

/-- How a `_write_frame` run ends. -/
inductive WriteOutcome
  | ok
  | writeError
  | reconnectError
deriving DecidableEq

/-- The injected transport behaviour for one `_write_frame` run:
`writeOk k` is the outcome of the k-th `write_gatt_char` call,
`reconnectOk` the outcome of the `_ensure_connected` → `_connect_async`
invocation inside the except branch. -/
structure WriteEnv where
  writeOk : Nat → Bool
  reconnectOk : Bool

/-- Operational model of `_write_frame` (lines 400-422), started from a
connected session (so the `_ensure_connected` at entry is a no-op).
Control flow of the source: try the write; on failure `_on_disconnect`
discards the connection, `_ensure_connected` reconnects (a failure there
propagates), and the write is retried once; a failure of the retried write
is uncaught (the spec's `WriteError`).  Returns the ordered event trace
and the outcome. -/
def write_frame_run (env : WriteEnv) : List SessionEvent × WriteOutcome :=
  if env.writeOk 0 then ([.writeAttempt], .ok)
  else if env.reconnectOk then
    ([.writeAttempt, .discard, .reconnect, .writeAttempt],
      if env.writeOk 1 then .ok else .writeError)
  else ([.writeAttempt, .discard, .reconnect], .reconnectError)

/-- C8: a single failing write followed by a successful reconnect discards
the current connection (once), reconnects exactly once and retries the
write exactly once (two write attempts in total); a successful retry
surfaces no error, while a failing retry surfaces the write error. -/
theorem write_frame_retry_policy (env : WriteEnv)
    (hfail : env.writeOk 0 = false) (hrec : env.reconnectOk = true) :
    (write_frame_run env).1.count .discard = 1 ∧
    (write_frame_run env).1.count .reconnect = 1 ∧
    (write_frame_run env).1.count .writeAttempt = 2 ∧
    (env.writeOk 1 = true → (write_frame_run env).2 = .ok) ∧
    (env.writeOk 1 = false → (write_frame_run env).2 = .writeError) := by
  refine ⟨?_, ?_, ?_, ?_, ?_⟩
  · simp [write_frame_run, hfail, hrec]
  · simp [write_frame_run, hfail, hrec]
  · simp [write_frame_run, hfail, hrec]
  · intro h
    simp [write_frame_run, hfail, hrec, h]
  · intro h
    simp [write_frame_run, hfail, hrec, h]

/-- Witness for `write_frame_retry_policy`: first write fails, reconnect
succeeds, second write succeeds. -/
theorem write_frame_retry_policy_witness :
    (write_frame_run ⟨fun k => k == 1, true⟩).1.count .discard = 1 ∧
    (write_frame_run ⟨fun k => k == 1, true⟩).1.count .reconnect = 1 ∧
    (write_frame_run ⟨fun k => k == 1, true⟩).1.count .writeAttempt = 2 ∧
    ((fun k => k == 1) 1 = true →
      (write_frame_run ⟨fun k => k == 1, true⟩).2 = .ok) ∧
    ((fun k => k == 1) 1 = false →
      (write_frame_run ⟨fun k => k == 1, true⟩).2 = .writeError) :=
  write_frame_retry_policy ⟨fun k => k == 1, true⟩ (by decide) rfl

/-- How a `_connect_async` run ends: either connected, or the raised
`HexagonLightError("Failed to connect after {n} attempts: {last_err}")`
carrying the last recorded underlying error. -/
inductive ConnectResult (ε : Type)
  | connected
  | failed (lastErr : Option ε)
deriving DecidableEq

/-- Trace of a `_connect_async` run: number of attempts made, the
`asyncio.sleep` delays in order, and the result. -/
structure ConnectTrace (ε : Type) where
  attempts : Nat
  delays : List ℚ
  result : ConnectResult ε
deriving DecidableEq

/-- The retry loop of `_connect_async` (lines 324-391) for a session that
is not closing and holds no live client.  Attempt numbers run from 1 to
`connect_retries`; an attempt either fully succeeds (`ok a`) and becomes
the live connection, or raises the error `err a`, which is recorded as
`last_err` followed by a sleep of `retry_delay_s * attempt` (the source
sleeps after every failure, including the final one).  Structured as the
source's bounded loop, with the remaining iteration count as fuel. -/
def connect_attempt_loop {ε : Type} (ok : Nat → Bool) (err : Nat → ε)
    (baseDelay : ℚ) : Nat → Nat → Option ε → ConnectTrace ε
  | _, 0, lastErr => ⟨0, [], .failed lastErr⟩
  | attempt, rem + 1, _lastErr =>
    if ok attempt then ⟨1, [], .connected⟩
    else
      let rest := connect_attempt_loop ok err baseDelay (attempt + 1) rem
        (some (err attempt))
      ⟨rest.attempts + 1, baseDelay * (attempt : ℚ) :: rest.delays,
        rest.result⟩

/-- `_connect_async` (lines 324-391): run the loop from attempt 1 with
`last_err = None`. -/
def connect_async {ε : Type} (retries : Nat) (baseDelay : ℚ)
    (ok : Nat → Bool) (err : Nat → ε) : ConnectTrace ε :=
  connect_attempt_loop ok err baseDelay 1 retries none

/-- The `connect_retries` default of `HexagonLight.__init__` (line 156). -/
def connect_retries_default : Nat := 5

theorem connect_attempt_loop_all_fail {ε : Type} (ok : Nat → Bool)
    (err : Nat → ε) (baseDelay : ℚ) (hfail : ∀ a, ok a = false) :
    ∀ (rem attempt : Nat) (lastErr : Option ε),
      connect_attempt_loop ok err baseDelay attempt rem lastErr =
        ⟨rem,
          (List.range rem).map
            (fun i : Nat => baseDelay * ((attempt + i : Nat) : ℚ)),
          .failed (if rem = 0 then lastErr
            else some (err (attempt + rem - 1)))⟩ := by
  intro rem
  induction rem with
  | zero =>
    intro attempt lastErr
    simp [connect_attempt_loop]
  | succ n ih =>
    intro attempt lastErr
    rw [connect_attempt_loop, hfail attempt]
    simp only [Bool.false_eq_true, if_false, ih (attempt + 1)]
    simp only [ConnectTrace.mk.injEq, true_and]
    refine ⟨?_, ?_⟩
    · rw [List.range_succ_eq_map, List.map_cons, List.map_map]
      refine congrArg₂ List.cons (by norm_num) ?_
      refine List.map_congr_left fun i _ => ?_
      have : attempt + 1 + i = attempt + (i + 1) := by omega
      rw [Function.comp_apply, this]
    · rcases Nat.eq_zero_or_pos n with hn | hn
      · subst hn
        simp
      · have h1 : ¬ (n = 0) := by omega
        have h2 : ¬ (n + 1 = 0) := by omega
        simp only [h1, h2, if_false]
        have : attempt + 1 + n - 1 = attempt + (n + 1) - 1 := by omega
        rw [this]

/-- C9: when every transport connect attempt fails, `_connect_async` makes
exactly the configured number of attempts (whose default is 5), sleeping
`retry_delay_s * attempt` after attempt number `attempt` (so the delay
between consecutive attempts grows linearly), and then fails with the
connect error carrying the last underlying error. -/
theorem connect_all_attempts_fail {ε : Type} (retries : Nat)
    (baseDelay : ℚ) (ok : Nat → Bool) (err : Nat → ε)
    (hretries : 1 ≤ retries) (hfail : ∀ a, ok a = false) :
    connect_async retries baseDelay ok err =
      ⟨retries,
        (List.range retries).map (fun i : Nat => baseDelay * ((i : ℚ) + 1)),
        .failed (some (err retries))⟩ ∧
    connect_retries_default = 5 := by
  refine ⟨?_, rfl⟩
  rw [connect_async, connect_attempt_loop_all_fail ok err baseDelay hfail]
  have h0 : ¬ (retries = 0) := by omega
  simp only [h0, if_false]
  simp only [ConnectTrace.mk.injEq, true_and]
  refine ⟨?_, ?_⟩
  · refine List.map_congr_left fun i _ => ?_
    push_cast
    ring
  · have : 1 + retries - 1 = retries := by omega
    rw [this]

/-- Witness for `connect_all_attempts_fail` at the defaults: 5 retries,
base delay 0.7 s, every attempt failing with error index `a`. -/
theorem connect_all_attempts_fail_witness :
    connect_async 5 (7/10 : ℚ) (fun _ => false) (fun a => a) =
      ⟨5, (List.range 5).map (fun i : Nat => (7/10 : ℚ) * ((i : ℚ) + 1)),
        .failed (some 5)⟩ ∧
    connect_retries_default = 5 :=
  connect_all_attempts_fail 5 (7/10 : ℚ) (fun _ => false) (fun a => a)
    (by decide) (fun a => rfl)

/-- Python `int()` truncation toward zero on an exact rational. -/
def py_int_trunc (q : ℚ) : Int :=
  if 0 ≤ q then ⌊q⌋ else -⌊-q⌋

/-- Python `x % y` (floor-mod, result with the sign of `y`) on exact
rationals: `x - y * ⌊x / y⌋`. -/
def py_mod (x y : ℚ) : ℚ :=
  x - y * ⌊x / y⌋

/-- `colorsys.rgb_to_hsv(r, g, b)` (CPython standard library), called by
`_rgb_to_hue_sat_payload` at line 141; the float arithmetic is modelled
exactly over `ℚ`. -/
def rgb_to_hsv (r g b : ℚ) : ℚ × ℚ × ℚ :=
  let maxc := max r (max g b)
  let minc := min r (min g b)
  let rangec := maxc - minc
  let v := maxc
  if minc = maxc then (0, 0, v)
  else
    let s := rangec / maxc
    let rc := (maxc - r) / rangec
    let gc := (maxc - g) / rangec
    let bc := (maxc - b) / rangec
    let h :=
      if r = maxc then bc - gc
      else if g = maxc then 2 + rc - bc
      else 4 + gc - rc
    (py_mod (h / 6) 1, s, v)

/-- `_rgb_to_hue_sat_payload(r, g, b)` (lines 137-144): clamp each channel
to `[0, 255]`, convert via `colorsys.rgb_to_hsv(r/255, g/255, b/255)`,
encode `int(h * 360.0) % 360` and `_clamp_int(int(s * 1000.0), 0, 1000)`
as big-endian u16 each; the HSV value component is discarded. -/
def rgb_to_hue_sat_payload (r g b : Int) : List Nat :=
  let r2 := clamp_int r 0 255
  let g2 := clamp_int g 0 255
  let b2 := clamp_int b 0 255
  let hsv := rgb_to_hsv ((r2 : ℚ) / 255) ((g2 : ℚ) / 255) ((b2 : ℚ) / 255)
  let hue_deg := py_int_trunc (hsv.1 * 360) % 360
  let sat_1000 := clamp_int (py_int_trunc (hsv.2.1 * 1000)) 0 1000
  u16_be hue_deg ++ u16_be sat_1000

/-- The standard RGB→HSV saturation: `0` for black, else
`(max - min) / max`. -/
def spec_saturation (r g b : ℚ) : ℚ :=
  let M := max r (max g b)
  let m := min r (min g b)
  if M = 0 then 0 else (M - m) / M

/-- The standard RGB→HSV hue in degrees in `[0, 360)`, with the usual
case order (red, then green, then blue dominant) and hue `0` for
achromatic colors. -/
def spec_hue_deg (r g b : ℚ) : ℚ :=
  let M := max r (max g b)
  let m := min r (min g b)
  if M = m then 0
  else if r = M then py_mod (60 * ((g - b) / (M - m))) 360
  else if g = M then 60 * ((b - r) / (M - m)) + 120
  else 60 * ((r - g) / (M - m)) + 240

/-- The color payload exactly as claim C3 words it: channels clamped to
`[0, 255]`, hue as (truncated) integer degrees in `[0, 360)` big-endian
u16, then `round(saturation * 1000)` clamped to `[0, 1000]` big-endian
u16.  (Mathlib's `round` and Python's only differ on exact halves, which
do not occur at the counterexample below.) -/
def spec_color_payload_round (r g b : Int) : List Nat :=
  let qr : ℚ := (clamp_int r 0 255 : ℚ) / 255
  let qg : ℚ := (clamp_int g 0 255 : ℚ) / 255
  let qb : ℚ := (clamp_int b 0 255 : ℚ) / 255
  u16_be (py_int_trunc (spec_hue_deg qr qg qb)) ++
    u16_be (clamp_int (round (spec_saturation qr qg qb * 1000)) 0 1000)

/-- The color payload as claim C3 amended: identical to
`spec_color_payload_round` except that `saturation * 1000` is truncated
(Python `int()`), not rounded, before clamping. -/
def spec_color_payload_trunc (r g b : Int) : List Nat :=
  let qr : ℚ := (clamp_int r 0 255 : ℚ) / 255
  let qg : ℚ := (clamp_int g 0 255 : ℚ) / 255
  let qb : ℚ := (clamp_int b 0 255 : ℚ) / 255
  u16_be (py_int_trunc (spec_hue_deg qr qg qb)) ++
    u16_be (clamp_int (py_int_trunc (spec_saturation qr qg qb * 1000)) 0 1000)

theorem py_int_trunc_of_nonneg (q : ℚ) (h : 0 ≤ q) : py_int_trunc q = ⌊q⌋ := by
  unfold py_int_trunc
  rw [if_pos h]

theorem py_mod_nonneg (x y : ℚ) (hy : 0 < y) : 0 ≤ py_mod x y := by
  unfold py_mod
  have h := Int.sub_one_lt_floor (x / y)
  have h2 : (⌊x / y⌋ : ℚ) ≤ x / y := Int.floor_le _
  have h3 : y * (⌊x / y⌋ : ℚ) ≤ y * (x / y) :=
    mul_le_mul_of_nonneg_left h2 (le_of_lt hy)
  have h4 : y * (x / y) = x := by
    field_simp
  linarith

theorem py_mod_lt (x y : ℚ) (hy : 0 < y) : py_mod x y < y := by
  unfold py_mod
  have h2 : x / y < (⌊x / y⌋ : ℚ) + 1 := Int.lt_floor_add_one _
  have h3 : y * (x / y) < y * ((⌊x / y⌋ : ℚ) + 1) :=
    (mul_lt_mul_left hy).mpr h2
  have h4 : y * (x / y) = x := by
    field_simp
  linarith

theorem py_mod_eq_self (x y : ℚ) (h0 : 0 ≤ x) (hxy : x < y) : py_mod x y = x := by
  have hy : 0 < y := lt_of_le_of_lt h0 hxy
  have h1 : ⌊x / y⌋ = 0 := by
    rw [Int.floor_eq_zero_iff]
    constructor
    · exact div_nonneg h0 (le_of_lt hy)
    · exact (div_lt_one hy).mpr hxy
  unfold py_mod
  rw [h1]
  simp

theorem py_mod_six_one (x : ℚ) : py_mod (x / 6) 1 * 360 = py_mod (60 * x) 360 := by
  unfold py_mod
  have h : 60 * x / 360 = x / 6 := by ring
  rw [h]
  have h2 : x / 6 / 1 = x / 6 := by ring
  rw [h2]
  ring

/-- The hue byte computed by the code, `int(h*360) % 360` over the
colorsys remainder `h = (h6/6) % 1`, equals the floor of the degree-level
remainder `(60*h6) % 360`. -/
theorem hue_code_normalize (x : ℚ) :
    py_int_trunc (py_mod (x / 6) 1 * 360) % 360 = ⌊py_mod (60 * x) 360⌋ := by
  rw [py_mod_six_one]
  have h0 : 0 ≤ py_mod (60 * x) 360 := py_mod_nonneg _ _ (by norm_num)
  have h1 : py_mod (60 * x) 360 < 360 := py_mod_lt _ _ (by norm_num)
  rw [py_int_trunc_of_nonneg _ h0]
  exact Int.emod_eq_of_lt (Int.floor_nonneg.mpr h0)
    (Int.floor_lt.mpr (by exact_mod_cast h1))

/-- The colorsys saturation equals the standard saturation on nonnegative
channels. -/
theorem sat_code_eq_spec (r g b : ℚ) (hr : 0 ≤ r) (hg : 0 ≤ g) (hb : 0 ≤ b) :
    (rgb_to_hsv r g b).2.1 = spec_saturation r g b := by
  by_cases hmm : min r (min g b) = max r (max g b)
  · simp only [rgb_to_hsv, spec_saturation]
    rw [if_pos hmm, ← hmm]
    split_ifs <;> simp
  · have hM0 : 0 ≤ max r (max g b) := le_trans hr (le_max_left _ _)
    have hMne : max r (max g b) ≠ 0 := by
      intro h
      apply hmm
      have h1 : r ≤ 0 := by
        have := le_max_left r (max g b)
        linarith [h ▸ this]
      have h2 : g ≤ 0 := by
        have := le_trans (le_max_left g b) (le_max_right r (max g b))
        linarith [h ▸ this]
      have h3 : b ≤ 0 := by
        have := le_trans (le_max_right g b) (le_max_right r (max g b))
        linarith [h ▸ this]
      have hr' : r = 0 := le_antisymm h1 hr
      have hg' : g = 0 := le_antisymm h2 hg
      have hb' : b = 0 := le_antisymm h3 hb
      simp [hr', hg', hb']
    simp only [rgb_to_hsv, spec_saturation]
    rw [if_neg hmm, if_neg hMne]

/-- The hue byte of the code (truncated, reduced mod 360) equals the
truncated standard hue in degrees, for any channels. -/
theorem hue_code_eq_spec (r g b : ℚ) :
    py_int_trunc ((rgb_to_hsv r g b).1 * 360) % 360 =
      py_int_trunc (spec_hue_deg r g b) := by
  have hmle : min r (min g b) ≤ max r (max g b) :=
    le_trans (min_le_left _ _) (le_max_left _ _)
  by_cases hmm : min r (min g b) = max r (max g b)
  · have hmm2 : max r (max g b) = min r (min g b) := hmm.symm
    simp only [rgb_to_hsv, spec_hue_deg]
    rw [if_pos hmm, if_pos hmm2]
    norm_num [py_int_trunc]
  · have hmm2 : ¬ (max r (max g b) = min r (min g b)) := fun h => hmm h.symm
    have hΔ : 0 < max r (max g b) - min r (min g b) :=
      sub_pos.mpr (lt_of_le_of_ne hmle hmm)
    have hΔne : max r (max g b) - min r (min g b) ≠ 0 := ne_of_gt hΔ
    have hrM : r ≤ max r (max g b) := le_max_left _ _
    have hgM : g ≤ max r (max g b) :=
      le_trans (le_max_left g b) (le_max_right r (max g b))
    have hbM : b ≤ max r (max g b) :=
      le_trans (le_max_right g b) (le_max_right r (max g b))
    have hmr : min r (min g b) ≤ r := min_le_left _ _
    have hmg : min r (min g b) ≤ g :=
      le_trans (min_le_right r (min g b)) (min_le_left g b)
    have hmb : min r (min g b) ≤ b :=
      le_trans (min_le_right r (min g b)) (min_le_right g b)
    simp only [rgb_to_hsv, spec_hue_deg]
    rw [if_neg hmm, if_neg hmm2]
    by_cases hr : r = max r (max g b)
    · rw [if_pos hr, if_pos hr]
      have hx : (max r (max g b) - b) / (max r (max g b) - min r (min g b)) -
          (max r (max g b) - g) / (max r (max g b) - min r (min g b)) =
          (g - b) / (max r (max g b) - min r (min g b)) := by
        rw [div_sub_div_same]
        congr 1
        ring
      rw [hx, hue_code_normalize]
      rw [py_int_trunc_of_nonneg _ (py_mod_nonneg _ _ (by norm_num))]
    · rw [if_neg hr, if_neg hr]
      by_cases hg : g = max r (max g b)
      · rw [if_pos hg, if_pos hg]
        have hstep : (2 : ℚ) + (max r (max g b) - r) / (max r (max g b) - min r (min g b)) -
            (max r (max g b) - b) / (max r (max g b) - min r (min g b)) =
            2 + (b - r) / (max r (max g b) - min r (min g b)) := by
          field_simp
          ring
        rw [hstep, hue_code_normalize]
        have hub : (b - r) / (max r (max g b) - min r (min g b)) ≤ 1 := by
          rw [div_le_one hΔ]
          linarith
        have hlb : (-1 : ℚ) ≤ (b - r) / (max r (max g b) - min r (min g b)) := by
          rw [le_div_iff₀ hΔ]
          linarith
        have h60 : 60 * (2 + (b - r) / (max r (max g b) - min r (min g b))) =
            60 * ((b - r) / (max r (max g b) - min r (min g b))) + 120 := by
          ring
        rw [h60]
        rw [py_mod_eq_self _ 360 (by linarith) (by linarith)]
        rw [py_int_trunc_of_nonneg _ (by linarith)]
      · rw [if_neg hg, if_neg hg]
        have hstep : (4 : ℚ) + (max r (max g b) - g) / (max r (max g b) - min r (min g b)) -
            (max r (max g b) - r) / (max r (max g b) - min r (min g b)) =
            4 + (r - g) / (max r (max g b) - min r (min g b)) := by
          field_simp
          ring
        rw [hstep, hue_code_normalize]
        have hub : (r - g) / (max r (max g b) - min r (min g b)) ≤ 1 := by
          rw [div_le_one hΔ]
          linarith
        have hlb : (-1 : ℚ) ≤ (r - g) / (max r (max g b) - min r (min g b)) := by
          rw [le_div_iff₀ hΔ]
          linarith
        have h60 : 60 * (4 + (r - g) / (max r (max g b) - min r (min g b))) =
            60 * ((r - g) / (max r (max g b) - min r (min g b))) + 240 := by
          ring
        rw [h60]
        rw [py_mod_eq_self _ 360 (by linarith) (by linarith)]
        rw [py_int_trunc_of_nonneg _ (by linarith)]

/-- C3 (amended): `_rgb_to_hue_sat_payload` clamps each channel to
`[0, 255]`, converts via the standard RGB→HSV formulas, and returns the
hue as truncated integer degrees in `[0, 360)` big-endian u16 followed by
the truncation (not rounding) of `saturation * 1000` clamped to
`[0, 1000]` big-endian u16; the HSV value component (which the
right-hand-side formulas never consult) has no influence. -/
theorem color_payload_standard_hsv_truncated (r g b : Int) :
    rgb_to_hue_sat_payload r g b = spec_color_payload_trunc r g b := by
  have hr0 := (clamp_int_mem r 0 255 (by omega)).1
  have hg0 := (clamp_int_mem g 0 255 (by omega)).1
  have hb0 := (clamp_int_mem b 0 255 (by omega)).1
  have hqr : (0 : ℚ) ≤ (clamp_int r 0 255 : ℚ) / 255 := by
    apply div_nonneg _ (by norm_num)
    exact_mod_cast hr0
  have hqg : (0 : ℚ) ≤ (clamp_int g 0 255 : ℚ) / 255 := by
    apply div_nonneg _ (by norm_num)
    exact_mod_cast hg0
  have hqb : (0 : ℚ) ≤ (clamp_int b 0 255 : ℚ) / 255 := by
    apply div_nonneg _ (by norm_num)
    exact_mod_cast hb0
  simp only [rgb_to_hue_sat_payload, spec_color_payload_trunc]
  rw [hue_code_eq_spec, sat_code_eq_spec _ _ _ hqr hqg hqb]

/-- Counterexample to C3 as stated: at input `(255, 254, 254)` the
standard saturation is `1/255`, so `saturation * 1000 = 1000/255 ≈ 3.92`;
the code truncates it to 3 while the claim's `round(saturation * 1000)`
gives 4, so the produced payload differs from the claimed one. -/
theorem color_payload_round_counterexample :
    rgb_to_hue_sat_payload 255 254 254 = [0, 0, 0, 3] ∧
    spec_color_payload_round 255 254 254 = [0, 0, 0, 4] ∧
    rgb_to_hue_sat_payload 255 254 254 ≠ spec_color_payload_round 255 254 254 := by
  have hq1 : ((clamp_int 255 0 255 : Int) : ℚ) / 255 = 1 := by
    norm_num [clamp_int]
  have hq2 : ((clamp_int 254 0 255 : Int) : ℚ) / 255 = 254 / 255 := by
    norm_num [clamp_int]
  have hmin : min (1 : ℚ) (min (254/255) (254/255)) = 254/255 := by
    rw [min_self]
    exact min_eq_right (by norm_num)
  have hmax : max (1 : ℚ) (max (254/255) (254/255)) = 1 := by
    rw [max_self]
    exact max_eq_left (by norm_num)
  have hcode : rgb_to_hue_sat_payload 255 254 254 = [0, 0, 0, 3] := by
    have hsv_eq : rgb_to_hsv 1 (254/255) (254/255) = (0, 1/255, 1) := by
      simp only [rgb_to_hsv, hmin, hmax]
      rw [if_neg (by norm_num)]
      norm_num [py_mod]
    simp only [rgb_to_hue_sat_payload, hq1, hq2, hsv_eq]
    have h1 : py_int_trunc ((0 : ℚ) * 360) % 360 = 0 := by
      norm_num [py_int_trunc]
    have h2 : py_int_trunc ((1/255 : ℚ) * 1000) = 3 := by
      rw [py_int_trunc, if_pos (by norm_num), Int.floor_eq_iff]
      norm_num
    rw [h1, h2]
    decide
  have hspec : spec_color_payload_round 255 254 254 = [0, 0, 0, 4] := by
    have hh : spec_hue_deg 1 (254/255) (254/255) = 0 := by
      simp only [spec_hue_deg, hmin, hmax]
      rw [if_neg (by norm_num)]
      norm_num [py_mod]
    have hs : spec_saturation 1 (254/255) (254/255) = 1/255 := by
      simp only [spec_saturation, hmin, hmax]
      rw [if_neg (by norm_num)]
      norm_num
    simp only [spec_color_payload_round, hq1, hq2, hh, hs]
    have h4 : round ((1/255 : ℚ) * 1000) = 4 := by
      rw [round_eq, Int.floor_eq_iff]
      norm_num
    have h0 : py_int_trunc (0 : ℚ) = 0 := by
      norm_num [py_int_trunc]
    rw [h4, h0]
    decide
  exact ⟨hcode, hspec, by rw [hcode, hspec]; decide⟩
